import Mathlib

/-!
Verification of the haproxy-letsencrypt certificate supervisor.

This file shallowly embeds the two Python modules of the repository,
`cert.py` (certificate manager) and `wrapper.py` (process supervisor),
as executable Lean definitions, and proves or refutes the specified
properties about them.

Modelling conventions:
* The filesystem is a partial map from path strings to file contents
  (`Fs := String → Option String`).
* Python exceptions become `Except PyErr` results; the exception kinds
  that the code can raise or catch are the constructors of `PyErr`.
* External subprocess invocations are parametrised by an environment
  function giving the exit code of each command; a command argument
  vector is a list of `Arg` values (string or integer), mirroring the
  fact that Python's subprocess API raises `TypeError` when an argument
  is not a string.
* Wall-clock time is an integer number of seconds.
-/

/-- The Python exception kinds relevant to this code base. -/
inductive PyErr where
  | valueError
  | typeError
  | calledProcessError
  | fileNotFoundError
  deriving DecidableEq, Repr

deriving instance DecidableEq for Except

/-- The characters Python's str.strip removes. -/
def isPySpace (c : Char) : Bool :=
  c = ' ' || c = '\t' || c = '\n' || c = '\r' || c = '\x0b' || c = '\x0c'

/-- Python str.strip(): drop leading and trailing whitespace. -/
def pyStrip (l : List Char) : List Char :=
  ((l.dropWhile isPySpace).reverse.dropWhile isPySpace).reverse

/-- Python str.split on the single-character separator: the pieces of
    the string between occurrences of the separator character. -/
def pySplit (sep : Char) : List Char → List (List Char)
  | [] => [[]]
  | c :: rest =>
    match pySplit sep rest with
    | [] => [[c]]
    | g :: gs => if c = sep then [] :: g :: gs else (c :: g) :: gs

/-- A filesystem: a partial map from paths to file contents. -/
def Fs : Type := String → Option String

/-- CertManager.TARGET_CERT_FOLDER in cert.py. -/
def TARGET_CERT_FOLDER : String := "/var/cert"

/-- FakeCertManager.SRC_CERT_ROOT in cert.py. -/
def FAKE_SRC_CERT_ROOT : String := "/var/fake_cert"

/-- LetsEncryptCertManager.SRC_CERT_ROOT in cert.py. -/
def LE_SRC_CERT_ROOT : String := "/etc/letsencrypt/live"

/-- CertManager.target_cert: os.path.join(TARGET_CERT_FOLDER, domain + '.pem'). -/
def target_cert (domain : String) : String :=
  TARGET_CERT_FOLDER ++ ("/") ++ domain ++ (".pem")

/-- The two strategy source files for a domain, in the order the code
    lists them: privkey.pem then fullchain.pem
    (the list comprehension in CertManager._get_input_files). -/
def input_files (srcRoot domain : String) : List String :=
  [srcRoot ++ ("/") ++ domain ++ ("/privkey.pem"),
   srcRoot ++ ("/") ++ domain ++ ("/fullchain.pem")]

/-- CertManager._get_input_files: checks each of the two input files,
    logging every one that does not exist (first component of the
    result is the list of missing files that were logged, in order),
    and raises ValueError when at least one is missing. -/
def get_input_files (srcRoot : String) (fs : Fs) (domain : String) :
    List String × Except PyErr (List String) :=
  let files := input_files srcRoot domain
  let missing := files.filter (fun p => (fs p).isNone)
  (missing, if missing.isEmpty then .ok files else .error .valueError)

/-- CertManager.merge_key_and_certificate: obtains the input files
    (raising ValueError, after logging every missing file, when one is
    absent), then writes the concatenation of their contents, in order,
    to target_cert domain (mode 'w' replaces any previous content).
    Returns the logged missing files and the resulting filesystem. -/
def merge_key_and_certificate (srcRoot : String) (fs : Fs) (domain : String) :
    List String × Except PyErr Fs :=
  let (missing, r) := get_input_files srcRoot fs domain
  match r with
  | .error e => (missing, .error e)
  | .ok files =>
    let contents := files.map (fun p => (fs p).getD (""))
    (missing, .ok (fun q =>
      if q = target_cert domain then some (String.join contents) else fs q))

/-- CertManager.should_certificate_be_renewed.
    Arguments mirror the data the Python code consults:
    `targetExists` is os.path.isfile(target_cert(domain));
    `inspect` is the outcome of subprocess.check_output on the openssl
    x509 -enddate command (error = non-zero exit, CalledProcessError);
    `cert_time_to_seconds` models ssl.cert_time_to_seconds (none = the
    ValueError that the code catches); `now` is time.time() and `lead`
    is renew_seconds_before_expiry.
    The unpacking `_, cert_time = result.decode().strip().split('=')`
    raises ValueError (uncaught) unless the split yields exactly two
    parts; only the ValueError of ssl.cert_time_to_seconds is caught. -/
def should_certificate_be_renewed (targetExists : Bool)
    (inspect : Except PyErr String)
    (cert_time_to_seconds : String → Option Int)
    (now lead : Int) : Except PyErr Bool :=
  if targetExists = false then .ok true
  else
    match inspect with
    | .error e => .error e
    | .ok out =>
      match pySplit '=' (pyStrip out.data) with
      | [_, cert_time] =>
        match cert_time_to_seconds (String.mk cert_time) with
        | none => .ok true
        | some expires_at => .ok (decide (now ≥ expires_at - lead))
      | _ => .error .valueError

/-- CertManager.generate: for each domain in order, run the
    needs-renewal check and, when it returns true, the strategy's
    generate_certificate. The per-domain operations are passed in
    abstractly as Except-valued functions. The first component of the
    result is the list of domains that were actually processed (their
    check was invoked); the second is the exception that aborted the
    pass, if any. There is no try/except in the loop, so an exception
    propagates immediately. -/
def generatePass (check : String → Except PyErr Bool)
    (gen : String → Except PyErr Unit) :
    List String → List String × Option PyErr
  | [] => ([], none)
  | d :: rest =>
    match check d with
    | .error e => ([d], some e)
    | .ok true =>
      match gen d with
      | .error e => ([d], some e)
      | .ok () =>
        let (l, r) := generatePass check gen rest
        (d :: l, r)
    | .ok false =>
      let (l, r) := generatePass check gen rest
      (d :: l, r)

/-- CertManager.renew: like generatePass but with the strategy's
    renew_certificate, counting the domains renewed (`changed`), and
    returning that count when no exception aborted the pass. The first
    component again records the domains whose check was invoked. -/
def renewPass (check : String → Except PyErr Bool)
    (rc : String → Except PyErr Unit) :
    List String → List String × Except PyErr Nat
  | [] => ([], .ok 0)
  | d :: rest =>
    match check d with
    | .error e => ([d], .error e)
    | .ok true =>
      match rc d with
      | .error e => ([d], .error e)
      | .ok () =>
        let (l, r) := renewPass check rc rest
        (d :: l, match r with | .ok n => .ok (n + 1) | .error e => .error e)
    | .ok false =>
      let (l, r) := renewPass check rc rest
      (d :: l, r)

/-- Whether the needs-renewal check of a domain succeeds with true. -/
def isDue (check : String → Except PyErr Bool) (d : String) : Bool :=
  match check d with
  | .ok true => true
  | _ => false

/-- One element of a subprocess argument vector. Python lets any object
    into the list; this code base puts strings and one integer there. -/
inductive Arg where
  | str (s : String)
  | int (n : Int)
  deriving DecidableEq, Repr

/-- Whether an argument is a string (the only kind the subprocess API
    accepts). -/
def Arg.isStr : Arg → Bool
  | .str _ => true
  | .int _ => false

/-- subprocess.call: raises TypeError if any argument is not a string
    (the child is then never spawned); otherwise runs the command and
    returns its exit code, whatever it is. The first component lists
    the commands actually spawned. `exit` is the environment giving
    each command's exit code. -/
def subprocess_call (exit : List Arg → Int) (cmd : List Arg) :
    List (List Arg) × Except PyErr Int :=
  if cmd.all Arg.isStr then ([cmd], .ok (exit cmd))
  else ([], .error .typeError)

/-- subprocess.check_call: like subprocess.call but raises
    CalledProcessError when the spawned command exits non-zero. -/
def subprocess_check_call (exit : List Arg → Int) (cmd : List Arg) :
    List (List Arg) × Except PyErr Unit :=
  if cmd.all Arg.isStr then
    ([cmd], if exit cmd = 0 then .ok () else .error .calledProcessError)
  else ([], .error .typeError)

/-- LetsEncryptCertManager.RENEW_PORT: an integer class attribute. -/
def RENEW_PORT : Int := 8443

/-- The certbot command built by LetsEncryptCertManager.generate_certificate. -/
def le_generate_command (domain email : String) (force_renewal : Bool) : List Arg :=
  [.str ("certbot"), .str ("certonly"), .str ("--standalone"),
   .str ("--agree-tos"), .str ("--non-interactive"), .str ("--test-cert"),
   .str ("--domain"), .str domain, .str ("--email"), .str email] ++
  (if force_renewal then [.str ("--force_renewal")] else [])

/-- The certbot command built by LetsEncryptCertManager.renew_certificate;
    note the bare integer RENEW_PORT placed in the argument list. -/
def le_renew_command (domain email : String) (force_renewal : Bool) : List Arg :=
  [.str ("certbot"), .str ("certonly"), .str ("--standalone"),
   .str ("--agree-tos"), .str ("--non-interactive"), .str ("--test-cert"),
   .str ("--tls-sni-01"), .int RENEW_PORT,
   .str ("--domain"), .str domain, .str ("--email"), .str email] ++
  (if force_renewal then [.str ("--force_renewal")] else [])

/-- LetsEncryptCertManager.generate_certificate: runs the certbot
    command with subprocess.call (exit code ignored), then merges key
    and certificate. Returns the spawned commands and the resulting
    filesystem (or the propagated exception). -/
def le_generate_certificate (exit : List Arg → Int) (fs : Fs)
    (domain email : String) (force_renewal : Bool) :
    List (List Arg) × Except PyErr Fs :=
  let (inv, r) := subprocess_call exit (le_generate_command domain email force_renewal)
  match r with
  | .error e => (inv, .error e)
  | .ok _ => (inv, (merge_key_and_certificate LE_SRC_CERT_ROOT fs domain).2)

/-- LetsEncryptCertManager.renew_certificate: runs the certbot renewal
    command with subprocess.check_call (non-zero exit raises), then
    merges key and certificate. -/
def le_renew_certificate (exit : List Arg → Int) (fs : Fs)
    (domain email : String) (force_renewal : Bool) :
    List (List Arg) × Except PyErr Fs :=
  let (inv, r) := subprocess_check_call exit (le_renew_command domain email force_renewal)
  match r with
  | .error e => (inv, .error e)
  | .ok _ => (inv, (merge_key_and_certificate LE_SRC_CERT_ROOT fs domain).2)

/-- Observable events of the Runner main loop (wrapper.py), tagged with
    the value of the discrete one-second clock at which they happen. -/
inductive Ev where
  | renewCall (t : Nat)
  | start (t : Nat)
  | terminate (t : Nat)
  | waitGrace (t : Nat) (timeout : Nat)
  | kill (t : Nat)
  deriving DecidableEq, Repr

/-- The timeout of Popen.wait in Runner._stop_haproxy. -/
def GRACE_TIMEOUT : Nat := 60

/-- The asynchronous inputs of one Runner.run execution, indexed by the
    discrete clock: whether SIGINT/SIGTERM is delivered during the
    one-second sleep starting at tick t, whether the (current) child
    process dies during that sleep, what cert_manager.renew() returns
    when invoked at tick t, and whether a terminated child exits within
    the 60-second grace period of a stop issued at tick t. -/
structure WEnv where
  signal : Nat → Bool
  childDies : Nat → Bool
  renewRes : Nat → Except PyErr Nat
  gracefulOk : Nat → Bool

/-- The inner wait loop of Runner.run (`for _ in range(cert_check_interval)`),
    started at tick t with `running` flag r and child-alive flag ca.
    Each iteration first checks `self.running` (a delivered signal has
    already set it to false: the handler does nothing but set the flag),
    then polls the child — an observed exit sets `running` to false and
    breaks — and otherwise sleeps one second, during which a signal or
    a child death may occur. Returns the clock, `running` and
    child-alive values at loop exit. -/
def waitLoop (env : WEnv) : Nat → Nat → Bool → Bool → Nat × Bool × Bool
  | 0, t, r, ca => (t, r, ca)
  | n + 1, t, r, ca =>
    if r = false then (t, r, ca)
    else if ca = false then (t, false, ca)
    else waitLoop env n (t + 1) (!env.signal t) (!env.childDies t)

/-- Runner._stop_haproxy at tick t: if the child is still running,
    terminate it, wait up to GRACE_TIMEOUT, and kill it if it did not
    exit within the grace period; afterwards the child is not running. -/
def stopHaproxy (env : WEnv) (t : Nat) (ca : Bool) : List Ev × Bool :=
  if ca then
    ([Ev.terminate t, Ev.waitGrace t GRACE_TIMEOUT] ++
      (if env.gracefulOk t then [] else [Ev.kill t]), false)
  else ([], false)

/-- The result of running the Runner.run main loop: the events it
    emitted, the clock at which the wait loop last exited, whether a
    child process is left running, and the exception that escaped
    Runner.run (none when the loop ended by `running` becoming false
    and the final _stop_haproxy ran). -/
structure RunOut where
  events : List Ev
  time : Nat
  childAlive : Bool
  err : Option PyErr
  deriving DecidableEq, Repr

/-- The `while self.running` loop of Runner.run, together with the
    final _stop_haproxy after it, with explicit fuel (the loop itself
    has no bound; every property proved below holds for the given
    fuel). Each iteration runs the wait loop, then unconditionally
    calls cert_manager.renew(); an exception from renew propagates out
    of Runner.run, skipping the final _stop_haproxy. When renew reports
    a non-zero count the child is stopped and started again (reload),
    even if `running` is already false. -/
def runLoop (env : WEnv) (interval : Nat) : Nat → Nat → Bool → Bool → RunOut
  | 0, t, _, ca => ⟨[], t, ca, none⟩
  | f + 1, t, r, ca =>
    if r = false then
      let (evs, ca2) := stopHaproxy env t ca
      ⟨evs, t, ca2, none⟩
    else
      let (t2, r2, ca2) := waitLoop env interval t r ca
      match env.renewRes t2 with
      | .error e => ⟨[Ev.renewCall t2], t2, ca2, some e⟩
      | .ok c =>
        if c ≠ 0 then
          let (sevs, _) := stopHaproxy env t2 ca2
          let rest := runLoop env interval f t2 r2 true
          ⟨Ev.renewCall t2 :: (sevs ++ (Ev.start t2 :: rest.events)),
           rest.time, rest.childAlive, rest.err⟩
        else
          let rest := runLoop env interval f t2 r2 ca2
          ⟨Ev.renewCall t2 :: rest.events, rest.time, rest.childAlive, rest.err⟩

/-- The number of renewal passes (cert_manager.renew() calls) recorded
    in an event list. -/
def countRenewCalls : List Ev → Nat
  | [] => 0
  | Ev.renewCall _ :: rest => countRenewCalls rest + 1
  | _ :: rest => countRenewCalls rest

/-- A convenient view of an Except value's error, if any. -/
def errOf {α : Type} : Except PyErr α → Option PyErr
  | .error e => some e
  | .ok _ => none

/-- A parse function under which any certificate time means 119 seconds
    since the epoch. -/
def cttsSoon : String → Option Int := fun _ => some 119

/-- A parse function under which any certificate time means 3720 seconds
    since the epoch. -/
def cttsLater : String → Option Int := fun _ => some 3720

/-- The filesystem after a successful merge for a domain (unchanged
    when the merge raised). -/
def mergedFs (srcRoot : String) (fs : Fs) (domain : String) : Fs :=
  match (merge_key_and_certificate srcRoot fs domain).2 with
  | .ok fs2 => fs2
  | .error _ => fs

/-- A filesystem holding a fake-strategy key and chain for example.com. -/
def fsFake : Fs := fun p =>
  if p = "/var/fake_cert/example.com/privkey.pem" then some ("KEY")
  else if p = "/var/fake_cert/example.com/fullchain.pem" then some ("CHAIN")
  else none

/-- A needs-renewal check under which exactly the domain a is due. -/
def checkOnlyA : String → Except PyErr Bool := fun d => .ok (d == "a")

/-- A per-domain renewal operation that always succeeds. -/
def renewAlwaysOk : String → Except PyErr Unit := fun _ => .ok ()

/-- A needs-renewal check that reports every domain as due. -/
def checkAlwaysDue : String → Except PyErr Bool := fun _ => .ok true

/-- A per-domain operation that fails for the domain a and succeeds
    otherwise. -/
def opFailsOnA : String → Except PyErr Unit := fun d =>
  if d == "a" then .error .calledProcessError else .ok ()

/-- The exit-code environment in which every external command exits 1. -/
def exitAlwaysOne : List Arg → Int := fun _ => 1

/-- A filesystem holding a letsencrypt key and chain for example.com. -/
def fsLE : Fs := fun p =>
  if p = "/etc/letsencrypt/live/example.com/privkey.pem" then some ("KEY")
  else if p = "/etc/letsencrypt/live/example.com/fullchain.pem" then some ("CHAIN")
  else none

/-- An environment in which the child dies during the first sleep,
    no signal arrives, every renewal pass reports one renewed
    certificate, and the child always terminates within the grace
    period. -/
def envChildExit : WEnv :=
  { signal := fun _ => false
  , childDies := fun t => t == 0
  , renewRes := fun _ => .ok 1
  , gracefulOk := fun _ => true }

/-- The environment of end-to-end scenario B: a SIGTERM during the
    sleep at tick 5, a healthy child, nothing due for renewal, and a
    child that terminates within the grace period. -/
def envSignalAt5 : WEnv :=
  { signal := fun t => t == 5
  , childDies := fun _ => false
  , renewRes := fun _ => .ok 0
  , gracefulOk := fun _ => true }

/-- Like envSignalAt5, except that the renewal pass raises (as, for
    instance, LetsEncryptCertManager.renew_certificate always does for
    a due domain). -/
def envSignalThenRaise : WEnv :=
  { signal := fun t => t == 5
  , childDies := fun _ => false
  , renewRes := fun _ => .error .typeError
  , gracefulOk := fun _ => true }

/-- String.join of a two-element list is plain concatenation. -/
theorem join_pair (a b : String) : String.join [a, b] = a ++ b := by
  simp [String.join]

/-- C2: needs_renewal returns true when the merged certificate file is
    absent; otherwise, when the inspection output parses to an expiry
    time, it returns true iff now is at or past expiry minus the
    renewal lead, in particular true for expiry = now + lead - 1 and
    false for expiry = now + lead + 3600. -/
theorem C2_needs_renewal_threshold (inspect : Except PyErr String)
    (ctts : String → Option Int) (now lead expiry : Int)
    (out : String) (name ts : List Char) :
    should_certificate_be_renewed false inspect ctts now lead = .ok true ∧
    (inspect = .ok out →
     pySplit '=' (pyStrip out.data) = [name, ts] →
     ctts (String.mk ts) = some expiry →
       should_certificate_be_renewed true inspect ctts now lead
         = .ok (decide (now ≥ expiry - lead)) ∧
       (expiry = now + lead - 1 →
         should_certificate_be_renewed true inspect ctts now lead = .ok true) ∧
       (expiry = now + lead + 3600 →
         should_certificate_be_renewed true inspect ctts now lead = .ok false)) := by
  constructor
  · rfl
  · intro h1 h2 h3
    subst h1
    have hmain : should_certificate_be_renewed true (.ok out) ctts now lead
        = .ok (decide (now ≥ expiry - lead)) := by
      simp [should_certificate_be_renewed, h2, h3]
    refine ⟨hmain, ?_, ?_⟩
    · intro he
      subst he
      rw [hmain]
      simp
    · intro he
      subst he
      rw [hmain]
      simp

/-- C2 witness: at now = 100 and lead = 20, a certificate expiring at
    119 = now + lead - 1 is renewed and one expiring at
    3720 = now + lead + 3600 is not. -/
theorem C2_needs_renewal_threshold_witness :
    should_certificate_be_renewed true (.ok ("notAfter=x")) cttsSoon 100 20 = .ok true ∧
    should_certificate_be_renewed true (.ok ("notAfter=x")) cttsLater 100 20 = .ok false :=
  ⟨((C2_needs_renewal_threshold (.ok ("notAfter=x")) cttsSoon 100 20 119
      ("notAfter=x") (("notAfter").data) (("x").data)).2 rfl (by decide) rfl).2.1 rfl,
   ((C2_needs_renewal_threshold (.ok ("notAfter=x")) cttsLater 100 20 3720
      ("notAfter=x") (("notAfter").data) (("x").data)).2 rfl (by decide) rfl).2.2 rfl⟩

/-- C3 counterexample: with the merged file present, a non-zero exit of
    the openssl inspection command propagates as CalledProcessError and
    an inspection output without exactly one '=' raises ValueError;
    neither case returns true as the claim states. -/
theorem C3_fail_open_counterexample :
    should_certificate_be_renewed true (.error .calledProcessError) (fun _ => none) 0 0
      = .error .calledProcessError ∧
    should_certificate_be_renewed true (.ok ("nonsense")) (fun _ => none) 0 0
      = .error .valueError ∧
    should_certificate_be_renewed true (.error .calledProcessError) (fun _ => none) 0 0
      ≠ .ok true := by decide

/-- C3 amended: only a failure of ssl.cert_time_to_seconds on the time
    string is caught and turned into true; a non-zero exit of the
    inspection tool propagates as the corresponding exception, and an
    output that does not split into exactly two parts around '='
    raises ValueError. -/
theorem C3_fail_open_only_on_time_conversion
    (ctts : String → Option Int) (now lead : Int) (out : String)
    (name ts : List Char) (e : PyErr) :
    (pySplit '=' (pyStrip out.data) = [name, ts] → ctts (String.mk ts) = none →
      should_certificate_be_renewed true (.ok out) ctts now lead = .ok true) ∧
    (should_certificate_be_renewed true (.error e) ctts now lead = .error e) ∧
    ((pySplit '=' (pyStrip out.data)).length ≠ 2 →
      should_certificate_be_renewed true (.ok out) ctts now lead = .error .valueError) := by
  refine ⟨?_, rfl, ?_⟩
  · intro h1 h2
    simp [should_certificate_be_renewed, h1, h2]
  · intro h
    simp only [should_certificate_be_renewed]
    match hs : pySplit '=' (pyStrip out.data) with
    | [] => simp
    | [_] => simp
    | [_, b] => rw [hs] at h; simp at h
    | _ :: _ :: _ :: _ => simp

/-- C3 amended witness: an output whose time string cannot be converted
    yields true. -/
theorem C3_fail_open_only_on_time_conversion_witness :
    should_certificate_be_renewed true (.ok ("notAfter=garbage")) (fun _ => none) 0 0 = .ok true :=
  (C3_fail_open_only_on_time_conversion (fun _ => none) 0 0 ("notAfter=garbage")
    (("notAfter").data) (("garbage").data) .valueError).1 (by decide) rfl

/-- The full behaviour of merge_key_and_certificate: the error iff a
    source file is missing, the logged missing files, and the written
    content on success. -/
theorem merge_contract_aux (srcRoot : String) (fs : Fs) (domain : String) :
    ((merge_key_and_certificate srcRoot fs domain).2 = .error .valueError ↔
      ((fs (srcRoot ++ ("/") ++ domain ++ ("/privkey.pem"))).isNone ∨
       (fs (srcRoot ++ ("/") ++ domain ++ ("/fullchain.pem"))).isNone)) ∧
    (merge_key_and_certificate srcRoot fs domain).1
      = (if (fs (srcRoot ++ ("/") ++ domain ++ ("/privkey.pem"))).isNone
           then [srcRoot ++ ("/") ++ domain ++ ("/privkey.pem")] else []) ++
        (if (fs (srcRoot ++ ("/") ++ domain ++ ("/fullchain.pem"))).isNone
           then [srcRoot ++ ("/") ++ domain ++ ("/fullchain.pem")] else []) ∧
    (∀ key chain,
      fs (srcRoot ++ ("/") ++ domain ++ ("/privkey.pem")) = some key →
      fs (srcRoot ++ ("/") ++ domain ++ ("/fullchain.pem")) = some chain →
        mergedFs srcRoot fs domain (target_cert domain) = some (key ++ chain) ∧
        (∀ q, q ≠ target_cert domain → mergedFs srcRoot fs domain q = fs q)) := by
  refine ⟨?_, ?_, ?_⟩
  · cases hk : fs (srcRoot ++ ("/") ++ domain ++ ("/privkey.pem")) <;>
      cases hc : fs (srcRoot ++ ("/") ++ domain ++ ("/fullchain.pem")) <;>
        simp [merge_key_and_certificate, get_input_files, input_files, hk, hc]
  · cases hk : fs (srcRoot ++ ("/") ++ domain ++ ("/privkey.pem")) <;>
      cases hc : fs (srcRoot ++ ("/") ++ domain ++ ("/fullchain.pem")) <;>
        simp [merge_key_and_certificate, get_input_files, input_files, hk, hc]
  · intro key chain hk hc
    constructor
    · simp [mergedFs, merge_key_and_certificate, get_input_files, input_files,
        hk, hc, join_pair]
    · intro q hq
      simp [mergedFs, merge_key_and_certificate, get_input_files, input_files,
        hk, hc, hq]

/-- C5: merge raises the ValueError iff at least one of the two source
    files is absent, after logging exactly the absent ones in order;
    when both are present it writes key then chain, concatenated, to
    the merged target path and touches no other path. -/
theorem C5_merge_contract (srcRoot : String) (fs : Fs) (domain : String) :
    ((merge_key_and_certificate srcRoot fs domain).2 = .error .valueError ↔
      ((fs (srcRoot ++ ("/") ++ domain ++ ("/privkey.pem"))).isNone ∨
       (fs (srcRoot ++ ("/") ++ domain ++ ("/fullchain.pem"))).isNone)) ∧
    (merge_key_and_certificate srcRoot fs domain).1
      = (if (fs (srcRoot ++ ("/") ++ domain ++ ("/privkey.pem"))).isNone
           then [srcRoot ++ ("/") ++ domain ++ ("/privkey.pem")] else []) ++
        (if (fs (srcRoot ++ ("/") ++ domain ++ ("/fullchain.pem"))).isNone
           then [srcRoot ++ ("/") ++ domain ++ ("/fullchain.pem")] else []) ∧
    (∀ key chain,
      fs (srcRoot ++ ("/") ++ domain ++ ("/privkey.pem")) = some key →
      fs (srcRoot ++ ("/") ++ domain ++ ("/fullchain.pem")) = some chain →
        mergedFs srcRoot fs domain (target_cert domain) = some (key ++ chain) ∧
        (∀ q, q ≠ target_cert domain → mergedFs srcRoot fs domain q = fs q)) :=
  merge_contract_aux srcRoot fs domain

/-- C5 witness: merging example.com's fake key and chain puts their
    key-then-chain concatenation at the merged target path. -/
theorem C5_merge_contract_witness :
    mergedFs FAKE_SRC_CERT_ROOT fsFake "example.com" (target_cert "example.com")
      = some ("KEY" ++ "CHAIN") :=
  ((C5_merge_contract FAKE_SRC_CERT_ROOT fsFake "example.com").2.2
    ("KEY") ("CHAIN") rfl rfl).1

/-- C6: with both source files present and the merged target path
    distinct from them, merging twice leaves the same bytes at the
    merged target path as merging once. -/
theorem C6_merge_idempotent (srcRoot : String) (fs : Fs) (domain : String)
    (hTarget : target_cert domain ∉ input_files srcRoot domain)
    (hKey : (fs (srcRoot ++ ("/") ++ domain ++ ("/privkey.pem"))).isSome)
    (hChain : (fs (srcRoot ++ ("/") ++ domain ++ ("/fullchain.pem"))).isSome) :
    mergedFs srcRoot (mergedFs srcRoot fs domain) domain (target_cert domain)
      = mergedFs srcRoot fs domain (target_cert domain) := by
  obtain ⟨key, hk⟩ := Option.isSome_iff_exists.mp hKey
  obtain ⟨chain, hc⟩ := Option.isSome_iff_exists.mp hChain
  simp [input_files] at hTarget
  obtain ⟨ht1, ht2⟩ := hTarget
  have h1 := (merge_contract_aux srcRoot fs domain).2.2 key chain hk hc
  have hk1 : mergedFs srcRoot fs domain (srcRoot ++ ("/") ++ domain ++ ("/privkey.pem"))
      = some key := by rw [h1.2 _ (fun h => ht1 h.symm), hk]
  have hc1 : mergedFs srcRoot fs domain (srcRoot ++ ("/") ++ domain ++ ("/fullchain.pem"))
      = some chain := by rw [h1.2 _ (fun h => ht2 h.symm), hc]
  have h2 := (merge_contract_aux srcRoot (mergedFs srcRoot fs domain) domain).2.2
    key chain hk1 hc1
  rw [h2.1, h1.1]

/-- C6 witness: for example.com under the fake-certificate root, the
    merged file's content is unchanged by a second merge. -/
theorem C6_merge_idempotent_witness :
    mergedFs FAKE_SRC_CERT_ROOT (mergedFs FAKE_SRC_CERT_ROOT fsFake "example.com")
        "example.com" (target_cert "example.com")
      = mergedFs FAKE_SRC_CERT_ROOT fsFake "example.com" (target_cert "example.com") :=
  C6_merge_idempotent FAKE_SRC_CERT_ROOT fsFake "example.com"
    (by decide) (by decide) (by decide)

/-- C7: whenever CertManager.renew runs to completion without an
    exception, the count it returns is exactly the number of domains
    whose needs-renewal check succeeded with true (each of which had
    renew_certificate invoked). -/
theorem C7_renew_count (check : String → Except PyErr Bool)
    (rc : String → Except PyErr Unit) (ds : List String) (n : Nat)
    (h : (renewPass check rc ds).2 = .ok n) :
    n = ds.countP (isDue check) := by
  induction ds generalizing n with
  | nil =>
    simp [renewPass] at h
    simp [h.symm]
  | cons d rest ih =>
    rw [List.countP_cons]
    cases hc : check d with
    | error e => simp [renewPass, hc] at h
    | ok b =>
      cases b with
      | false =>
        simp [renewPass, hc] at h
        simp [isDue, hc, ih n h]
      | true =>
        cases hr : rc d with
        | error e => simp [renewPass, hc, hr] at h
        | ok u =>
          cases hrest : (renewPass check rc rest).2 with
          | error e => simp [renewPass, hc, hr, hrest] at h
          | ok m =>
            simp [renewPass, hc, hr, hrest] at h
            simp [isDue, hc, h.symm, ih m hrest]

/-- C7 witness: with domains a and b of which only a is due, renew
    returns 1. -/
theorem C7_renew_count_witness :
    (renewPass checkOnlyA renewAlwaysOk ["a", "b"]).2 = .ok 1 ∧
    1 = (["a", "b"]).countP (isDue checkOnlyA) :=
  ⟨by decide, C7_renew_count checkOnlyA renewAlwaysOk ["a", "b"] 1 (by decide)⟩

/-- C1 counterexample: with domains a and b both due and the per-domain
    operation failing on a, both generate and renew stop at a — the
    exception propagates and b is never processed, contradicting the
    claimed log-and-continue isolation. -/
theorem C1_isolation_counterexample :
    generatePass checkAlwaysDue opFailsOnA ["a", "b"]
      = (["a"], some .calledProcessError) ∧
    renewPass checkAlwaysDue opFailsOnA ["a", "b"]
      = (["a"], .error .calledProcessError) ∧
    ("b") ∉ (generatePass checkAlwaysDue opFailsOnA ["a", "b"]).1 ∧
    ("b") ∉ (renewPass checkAlwaysDue opFailsOnA ["a", "b"]).1 := by decide

/-- C1 amended: the loops of CertManager.generate and CertManager.renew
    have no exception handling, so a failing per-domain operation
    aborts the whole pass: the failing domain is the last one
    processed, the exception propagates to the caller, and the
    remaining domains are not processed. -/
theorem C1_failure_aborts_pass (check : String → Except PyErr Bool)
    (gen rc : String → Except PyErr Unit) (d : String) (rest : List String)
    (e : PyErr) (hc : check d = .ok true) (hg : gen d = .error e)
    (hr : rc d = .error e) :
    generatePass check gen (d :: rest) = ([d], some e) ∧
    renewPass check rc (d :: rest) = ([d], .error e) := by
  constructor
  · simp [generatePass, hc, hg]
  · simp [renewPass, hc, hr]

/-- C1 amended witness: the concrete two-domain aborted pass. -/
theorem C1_failure_aborts_pass_witness :
    generatePass checkAlwaysDue opFailsOnA ["a", "b"]
      = (["a"], some .calledProcessError) ∧
    renewPass checkAlwaysDue opFailsOnA ["a", "b"]
      = (["a"], .error .calledProcessError) :=
  C1_failure_aborts_pass checkAlwaysDue opFailsOnA opFailsOnA "a" ["b"]
    .calledProcessError rfl rfl rfl

/-- C10: for every environment, filesystem, domain, email and
    force-renewal setting, LetsEncryptCertManager.renew_certificate
    raises TypeError while building the subprocess invocation — the
    integer RENEW_PORT sits in the argument list — so the ACME client
    is never spawned (no command is invoked) and the merge step is
    never reached (the result is the TypeError for every filesystem). -/
theorem C10_renew_blocked_by_int_port (exit : List Arg → Int) (fs : Fs)
    (domain email : String) (force_renewal : Bool) :
    (le_renew_certificate exit fs domain email force_renewal).1 = [] ∧
    (le_renew_certificate exit fs domain email force_renewal).2
      = .error .typeError := by
  have hall : (le_renew_command domain email force_renewal).all Arg.isStr = false := by
    cases force_renewal <;> simp [le_renew_command, Arg.isStr]
  constructor <;>
    simp [le_renew_certificate, subprocess_check_call, hall]

/-- C8, evaluated at the failing input: with certbot exiting 1,
    generate_certificate spawns the certbot command, swallows the
    non-zero exit and proceeds to the merge (which succeeds), while
    renew_certificate raises TypeError without spawning certbot at all,
    so a non-zero certbot exit is never what reaches its caller. -/
theorem C8_renew_propagation_at_failing_input :
    (le_generate_certificate exitAlwaysOne fsLE "example.com" "admin@example.com" false).1
      = [le_generate_command "example.com" "admin@example.com" false] ∧
    errOf (le_generate_certificate exitAlwaysOne fsLE "example.com" "admin@example.com" false).2
      = none ∧
    (le_renew_certificate exitAlwaysOne fsLE "example.com" "admin@example.com" false).1
      = [] ∧
    errOf (le_renew_certificate exitAlwaysOne fsLE "example.com" "admin@example.com" false).2
      = some .typeError ∧
    some PyErr.typeError ≠ some PyErr.calledProcessError := by
  refine ⟨by decide, ?_, by decide, ?_, by decide⟩
  · simp [le_generate_certificate, subprocess_call, le_generate_command, Arg.isStr,
      merge_key_and_certificate, get_input_files, input_files, errOf, fsLE,
      exitAlwaysOne, LE_SRC_CERT_ROOT]
  · simp [le_renew_certificate, subprocess_check_call, le_renew_command, Arg.isStr, errOf]

/-- C4 counterexample: the child dies during the first sleep and its
    exit is detected at tick 1; the loop nevertheless falls through to
    one more cert_manager.renew() call (renewCall 1), and because that
    pass reports a renewed certificate the child is started again
    (start 1) before the final teardown stops it. This contradicts both
    "renew_due is not called again" and "the child is never
    restarted". -/
theorem C4_no_restart_counterexample :
    runLoop envChildExit 3 5 0 true true =
      ⟨[Ev.renewCall 1, Ev.start 1, Ev.terminate 1, Ev.waitGrace 1 GRACE_TIMEOUT],
       1, false, none⟩ := by decide

/-- The wait loop returns immediately when running is already false. -/
theorem waitLoop_not_running (env : WEnv) (n t : Nat) (ca : Bool) :
    waitLoop env n t false ca = (t, false, ca) := by
  cases n <;> simp [waitLoop]

/-- The events emitted by a stop contain no renewal pass. -/
theorem countRenewCalls_stopHaproxy (env : WEnv) (t : Nat) (ca : Bool) :
    countRenewCalls (stopHaproxy env t ca).1 = 0 := by
  cases ca <;> simp [stopHaproxy] <;>
    cases env.gracefulOk t <;> simp [countRenewCalls]

/-- C4 amended: when the child is already dead at a wait-loop entry
    with running still true (the state right before the poll that
    detects an unexpected exit), the poll sets running to false, and
    the remaining execution performs exactly one further renewal pass,
    advances the clock no further, never re-enters the wait loop, and —
    unless that pass raised — ends with no child running. -/
theorem C4_child_exit_one_more_renew (env : WEnv) (n f t : Nat) (hn : 1 ≤ n) :
    (waitLoop env n t true false).2.1 = false ∧
    countRenewCalls (runLoop env n (f + 2) t true false).events = 1 ∧
    (runLoop env n (f + 2) t true false).time = t ∧
    ((runLoop env n (f + 2) t true false).err = none →
      (runLoop env n (f + 2) t true false).childAlive = false) := by
  cases n with
  | zero => omega
  | succ m =>
    have hw : waitLoop env (m + 1) t true false = (t, false, false) := by
      simp [waitLoop]
    refine ⟨by simp [hw], ?_⟩
    cases hr : env.renewRes t with
    | error e =>
      simp [runLoop, hw, hr, countRenewCalls]
    | ok c =>
      cases hc : decide (c = 0) with
      | true =>
        simp at hc
        simp [runLoop, hw, hr, hc, waitLoop_not_running, stopHaproxy, countRenewCalls]
      | false =>
        simp at hc
        simp [runLoop, hw, hr, hc, waitLoop_not_running, stopHaproxy,
          countRenewCalls, countRenewCalls_stopHaproxy]
        cases env.gracefulOk t <;> simp [countRenewCalls]

/-- C4 amended witness: the dead-child state at tick 7 with a
    three-second interval. -/
theorem C4_child_exit_one_more_renew_witness :
    (waitLoop envChildExit 3 7 true false).2.1 = false ∧
    countRenewCalls (runLoop envChildExit 3 2 7 true false).events = 1 ∧
    (runLoop envChildExit 3 2 7 true false).time = 7 ∧
    ((runLoop envChildExit 3 2 7 true false).err = none →
      (runLoop envChildExit 3 2 7 true false).childAlive = false) :=
  C4_child_exit_one_more_renew envChildExit 3 0 7 (by decide)

/-- The wait loop, entered at tick t0 with the child alive, when the
    only asynchronous input is a signal during the sleep at tick s,
    exits at tick s + 1 with running false and the child alive. -/
theorem waitLoop_signal_exit (env : WEnv) (s : Nat)
    (hsig : ∀ t, env.signal t = (t == s))
    (hchild : ∀ t, env.childDies t = false) :
    ∀ n t0, t0 ≤ s → s < t0 + n → waitLoop env n t0 true true = (s + 1, false, true) := by
  intro n
  induction n with
  | zero => intro t0 h1 h2; omega
  | succ m ih =>
    intro t0 h1 h2
    rw [waitLoop]
    simp only [hsig, hchild]
    by_cases he : t0 = s
    · subst he
      simp [waitLoop_not_running]
    · have hne : (t0 == s) = false := by simp [he]
      rw [hne]
      simp only [Bool.not_false, Bool.not_true]
      exact ih (t0 + 1) (by omega) (by omega)

/-- C9 counterexample: a signal during the sleep at tick 5 of a
    24-second wait loop, with the subsequent renewal pass raising (as
    the ACME renewal path always does for a due domain): the exception
    escapes Runner.run past the final _stop_haproxy, so the run ends
    with the child still running and no terminate, grace wait or kill
    ever attempted — the claimed graceful stop before process exit does
    not happen. -/
theorem C9_graceful_stop_counterexample :
    runLoop envSignalThenRaise 24 2 0 true true =
      ⟨[Ev.renewCall 6], 6, true, some PyErr.typeError⟩ ∧
    Ev.terminate 6 ∉ (runLoop envSignalThenRaise 24 2 0 true true).events ∧
    Ev.waitGrace 6 GRACE_TIMEOUT ∉ (runLoop envSignalThenRaise 24 2 0 true true).events ∧
    Ev.kill 6 ∉ (runLoop envSignalThenRaise 24 2 0 true true).events := by decide

/-- C9 amended: a signal delivered during the sleep at tick s of the
    wait loop (any s with s + 1 < cert_check_interval, so strictly
    before the interval would have elapsed), with the child healthy, is
    handled by merely flipping running to false, and the wait loop
    exits at tick s + 1 — within one second of delivery, never waiting
    out the full interval. The loop then falls through to one final
    renewal pass. If that pass returns normally (here renewing
    nothing), the run ends at tick s + 1 having terminated the child
    and waited on it with the 60-second grace timeout before exiting;
    but if the pass raises, the exception escapes Runner.run and the
    process exits with no stop attempted and the child left running. -/
theorem C9_signal_prompt_exit (env : WEnv) (n s f : Nat) (e : PyErr)
    (hsig : ∀ t, env.signal t = (t == s))
    (hchild : ∀ t, env.childDies t = false)
    (hgrace : ∀ t, env.gracefulOk t = true)
    (hs : s + 1 < n) :
    waitLoop env n 0 true true = (s + 1, false, true) ∧
    (env.renewRes (s + 1) = .ok 0 →
      runLoop env n (f + 2) 0 true true =
        ⟨[Ev.renewCall (s + 1), Ev.terminate (s + 1), Ev.waitGrace (s + 1) GRACE_TIMEOUT],
         s + 1, false, none⟩) ∧
    (env.renewRes (s + 1) = .error e →
      runLoop env n (f + 2) 0 true true =
        ⟨[Ev.renewCall (s + 1)], s + 1, true, some e⟩) := by
  have hw : waitLoop env n 0 true true = (s + 1, false, true) :=
    waitLoop_signal_exit env s hsig hchild n 0 (by omega) (by omega)
  refine ⟨hw, ?_, ?_⟩
  · intro hrenew
    rw [runLoop]
    simp only [hw, hrenew]
    simp [runLoop, stopHaproxy, hgrace]
  · intro hrenew
    rw [runLoop]
    simp only [hw, hrenew]
    simp

/-- C9 amended witness: scenario B — a 24-second interval with the
    signal at tick 5 exits the loop at tick 6 and stops the child
    gracefully when the final renewal pass succeeds, and exits with the
    child still running when that pass raises. -/
theorem C9_signal_prompt_exit_witness :
    runLoop envSignalAt5 24 2 0 true true =
      ⟨[Ev.renewCall 6, Ev.terminate 6, Ev.waitGrace 6 GRACE_TIMEOUT],
       6, false, none⟩ ∧
    runLoop envSignalThenRaise 24 2 0 true true =
      ⟨[Ev.renewCall 6], 6, true, some PyErr.typeError⟩ :=
  ⟨(C9_signal_prompt_exit envSignalAt5 24 5 0 PyErr.typeError (fun t => rfl)
      (fun t => rfl) (fun t => rfl) (by decide)).2.1 rfl,
   (C9_signal_prompt_exit envSignalThenRaise 24 5 0 PyErr.typeError (fun t => rfl)
      (fun t => rfl) (fun t => rfl) (by decide)).2.2 rfl⟩

